import Mathlib

/-!
Verification of the PyVM IA-32 emulator core against its specification.

The Lean definitions below are shallow embeddings of the Python sources
`src/VM/instructions/bitwise.py`, `src/VM/instructions/memory.py` and
`src/VM/kernel.py`.  Machine integers are modelled as `Nat` (Python ints are
unbounded; the handlers mask explicitly with `MAXVALS`), and values that the
Python code computes with possibly-negative intermediate results are modelled
as `Int` with Python's floor division / modulo semantics.
-/

namespace PyVM

/-- The EFLAGS bits the instruction handlers read and write
(`vm.reg.eflags` / `eflags_set` in the sources). -/
structure EFlags where
  CF : Bool
  PF : Bool
  AF : Bool
  ZF : Bool
  SF : Bool
  DF : Bool
  OF : Bool
deriving DecidableEq, Repr

/-- `MAXVALS[n]` from the sources: the maximum value of an unsigned
`n`-byte number (entries other than 1, 2, 4 are `None` in Python and
unused; they are mapped to 0 here). -/
def MAXVALS : Nat → Nat
  | 1 => (1 <<< 8) - 1
  | 2 => (1 <<< 16) - 1
  | 4 => (1 <<< 32) - 1
  | _ => 0

/-- Modelled from the spec: `parity` lives in `VM/misc.py`, which is not part
of the sources given; the spec defines it as the XNOR of the low byte's bits —
1 iff the byte has an even number of set bits.  (The Python function also
receives a size argument, which does not enter this definition.) -/
def parity (b : Nat) : Bool :=
  decide ((List.range 8).countP (fun i => b.testBit i) % 2 = 0)

/-- Machine state seen by the instruction handlers: the eight 32-bit
general-purpose register slots, linear memory, and EFLAGS.  Memory is modelled
at operand granularity: `mem a` is the value stored at address `a`, and the
handlers below always read and write it together with an explicit size mask,
mirroring `mem.get(addr, size)` / `mem.set(addr, size, value)`. -/
structure Mach where
  regs : Nat → Nat
  mem : Nat → Nat
  flags : EFlags

/-- Modelled from the spec: the register file (`VM/Registers.py` is not part
of the sources given); `get(index, size)` returns the low `size` bytes of the
slot.  The width-1 high-byte aliasing of indices 4..7 (AH/CH/DH/BH) is not
modelled; no theorem below exercises it. -/
def regGet (s : Mach) (r sz : Nat) : Nat := s.regs r % (MAXVALS sz + 1)

/-- Modelled from the spec: `set(index, size, value)` writes the low `size`
bytes of the slot, leaving the remaining bits of the 32-bit slot unchanged. -/
def regSet (s : Mach) (r sz v : Nat) : Mach :=
  { s with regs := fun i =>
      if i = r then s.regs i - s.regs i % (MAXVALS sz + 1) + v % (MAXVALS sz + 1)
      else s.regs i }

/-- `mem.get(addr, size)`: read the `size`-byte value stored at `addr`. -/
def memGet (s : Mach) (a sz : Nat) : Nat := s.mem a % (MAXVALS sz + 1)

/-- `mem.set(addr, size, value)`: store a `size`-byte value at `addr`. -/
def memSet (s : Mach) (a sz v : Nat) : Mach :=
  { s with mem := fun i => if i = a then v % (MAXVALS sz + 1) else s.mem i }

/-- `(vm.mem if type else vm.reg).get(loc, sz)` — the r/m operand read,
where `typ = true` means the ModR/M byte selected a memory operand. -/
def rmGet (s : Mach) (typ : Bool) (loc sz : Nat) : Nat :=
  if typ then memGet s loc sz else regGet s loc sz

/-- `(vm.mem if type else vm.reg).set(loc, sz, v)` — the r/m operand write. -/
def rmSet (s : Mach) (typ : Bool) (loc sz v : Nat) : Mach :=
  if typ then memSet s loc sz v else regSet s loc sz v

/-! ## AND / OR / XOR / TEST — class `BITWISE` in `instructions/bitwise.py` -/

/-- The `operation` argument bound into the opcode table slots of `BITWISE`
(`operator.and_`, `operator.or_`, `operator.xor`). -/
inductive BitOp | band | bor | bxor
deriving DecidableEq, Repr

def BitOp.apply : BitOp → Nat → Nat → Nat
  | .band, a, b => a &&& b
  | .bor, a, b => a ||| b
  | .bxor, a, b => a ^^^ b

/-- `BITWISE.rm_r` (opcodes 0x20/0x21, 0x08/0x09, 0x30/0x31, 0x84/0x85):
`a` is the r/m operand, `b` the reg operand; `test = true` suppresses the
write-back (TEST).  `sz` is 1 for the `_8bit` variants, else the operand
size. -/
def BITWISE.rm_r (op : BitOp) (test : Bool) (typ : Bool) (loc rIdx sz : Nat)
    (s : Mach) : Mach :=
  let a := rmGet s typ loc sz
  let b := regGet s rIdx sz
  let fl0 := { s.flags with OF := false, CF := false }
  let c := op.apply a b
  let fl1 := { fl0 with SF := decide ((c >>> (sz * 8 - 1)) &&& 1 = 1) }
  let c := c &&& MAXVALS sz
  let fl2 := { fl1 with ZF := decide (c = 0) }
  let fl3 := { fl2 with PF := parity (c &&& 255) }
  let s1 := { s with flags := fl3 }
  if test then s1 else rmSet s1 typ loc sz c

/-- `BITWISE.r_imm` (opcodes 0x24/0x25, 0x0C/0x0D, 0x34/0x35, 0xA8/0xA9):
`a` is the accumulator, `b` an `sz`-byte immediate fetched from the
instruction stream (hence reduced mod `2^(8*sz)`). -/
def BITWISE.r_imm (op : BitOp) (test : Bool) (sz imm : Nat) (s : Mach) : Mach :=
  let b := imm % (MAXVALS sz + 1)
  let a := regGet s 0 sz
  let fl0 := { s.flags with OF := false, CF := false }
  let c := op.apply a b
  let fl1 := { fl0 with SF := decide ((c >>> (sz * 8 - 1)) &&& 1 = 1) }
  let c := c &&& MAXVALS sz
  let fl2 := { fl1 with ZF := decide (c = 0) }
  let fl3 := { fl2 with PF := parity (c &&& 255) }
  let s1 := { s with flags := fl3 }
  if test then s1 else regSet s1 0 sz c

/-! ## NEG / NOT — class `NEGNOT` in `instructions/bitwise.py` -/

def NEGNOT.operation_not (a off : Nat) : Nat := MAXVALS off - a

def NEGNOT.operation_neg (a off : Nat) : Nat := NEGNOT.operation_not a off + 1

/-- `NEGNOT.rm` (opcodes 0xF6/0xF7, reg field 3 = NEG, 2 = NOT), after group
dispatch has resolved `operation` (`isNeg = true` for NEG).  Note the final
write-back in the source is `vm.reg.set(loc, b)` — unconditionally through the
register file, even when the ModR/M byte selected a memory operand. -/
def NEGNOT.rm (isNeg : Bool) (typ : Bool) (loc sz : Nat) (s : Mach) : Mach :=
  let a := rmGet s typ loc sz
  let fl0 := if isNeg then { s.flags with CF := decide (a ≠ 0) } else s.flags
  let b := (if isNeg then NEGNOT.operation_neg a sz else NEGNOT.operation_not a sz)
             &&& MAXVALS sz
  let sign_b := (b >>> (sz * 8 - 1)) &&& 1
  let fl1 := if isNeg then { fl0 with SF := decide (sign_b = 1), ZF := decide (b = 0) }
             else fl0
  let fl2 := if isNeg then { fl1 with PF := parity (b &&& 255) } else fl1
  regSet { s with flags := fl2 } loc sz b

/-! ## XCHG — class `XCHG` in `instructions/memory.py` -/

/-- `XCHG.rm_r` (opcodes 0x86/0x87).  The source guards the swap with
`if loc != R[1]`, comparing the r/m value (a register index *or* an effective
memory address) against the reg-field register index. -/
def XCHG.rm_r (typ : Bool) (loc rIdx sz : Nat) (s : Mach) : Mach :=
  if loc ≠ rIdx then
    let aVal := rmGet s typ loc sz
    let bVal := regGet s rIdx sz
    regSet (rmSet s typ loc sz bVal) rIdx sz aVal
  else s

/-! ## CMPXCHG — class `CMPXCHG` in `instructions/memory.py` -/

/-- `CMPXCHG.rm_r` (opcodes 0x0FB0/0x0FB1).  `a` is AL/AX/EAX, `b` the
destination (r/m) operand, `rIdx` the source register.  The compare section
mirrors the source line by line; the source line
`vm.reg.eflags.PF, parity(c)` is a bare tuple expression with no effect, so
PF is left unchanged here. -/
def CMPXCHG.rm_r (typ : Bool) (loc rIdx sz : Nat) (s : Mach) : Mach :=
  let a := regGet s 0 sz
  let b := rmGet s typ loc sz
  let c := a + MAXVALS sz + 1 - b
  let sign_a := (a >>> (sz * 8 - 1)) &&& 1
  let sign_b := (b >>> (sz * 8 - 1)) &&& 1
  let sign_c := (c >>> (sz * 8 - 1)) &&& 1
  let fl0 := { s.flags with
    OF := decide (sign_a ≠ sign_b) && decide (sign_a ≠ sign_c)
    CF := decide (b > a)
    AF := decide ((b &&& 255) > (a &&& 255))
    SF := decide (sign_c = 1) }
  let c := c &&& MAXVALS sz
  let fl1 := { fl0 with ZF := decide (c = 0) }
  let s1 := { s with flags := fl1 }
  if fl1.ZF then rmSet s1 typ loc sz (regGet s rIdx sz)
  else rmSet (regSet s1 0 sz b) typ loc sz b

/-! ## SHL / SHR / SAR — class `SHIFT` in `instructions/bitwise.py` -/

inductive ShiftOp | shl | shr | sar
deriving DecidableEq, Repr

/-- `to_int(bytes, signed=True)` of an `sz`-byte value. -/
def toSigned (v sz : Nat) : Int :=
  if v < 2 ^ (sz * 8 - 1) then (v : Int) else (v : Int) - 2 ^ (sz * 8)

/-- Python `(d >> (sz*8 - 1)) & 1 == 1` on a (possibly negative) int:
arithmetic shift is floor division, `& 1` is mod 2. -/
def msbI (d : Int) (sz : Nat) : Bool :=
  decide (Int.fdiv d (2 ^ (sz * 8 - 1)) % 2 = 1)

/-- Python `d & 1 == 1` (`LSB(dst, 1)` in the source). -/
def lsbI (d : Int) : Bool := decide (d % 2 = 1)

/-- The `while tmp_cnt != 0` loop of `SHIFT.shift`: each iteration records CF
from the bit about to be shifted out, then shifts by one (left for SHL,
arithmetic right — Python floor division — for SHR/SAR, whose operand was read
signed only for SAR). -/
def SHIFT.loop (op : ShiftOp) (sz : Nat) : Nat → Int → Bool → Int × Bool
  | 0, d, cf => (d, cf)
  | n + 1, d, _ =>
    match op with
    | .shl => SHIFT.loop op sz n (d * 2) (msbI d sz)
    | _ => SHIFT.loop op sz n (Int.fdiv d 2) (lsbI d)

/-- `SHIFT.shift` after group dispatch and count fetch: `cnt` is the raw count
(1, CL, or the imm8 byte).  A zero masked count returns before any state is
read or written. -/
def SHIFT.shift (op : ShiftOp) (cnt : Nat) (typ : Bool) (loc sz : Nat)
    (s : Mach) : Mach :=
  let countMASK := 0x1F
  let tmp_cnt := cnt &&& countMASK
  if tmp_cnt = 0 then s
  else
    let dst0 : Int :=
      if op = ShiftOp.sar then toSigned (rmGet s typ loc sz) sz
      else (rmGet s typ loc sz : Int)
    let r := SHIFT.loop op sz tmp_cnt dst0 s.flags.CF
    let dstL := r.1
    let fl0 := { s.flags with CF := r.2 }
    let fl1 :=
      if cnt &&& countMASK = 1 then
        match op with
        | .shl => { fl0 with OF := xor (msbI dstL sz) r.2 }
        | .sar => { fl0 with OF := false }
        | .shr => { fl0 with OF := msbI dst0 sz }
      else fl0
    let fl2 := { fl1 with SF := msbI dstL sz }
    let dstM : Nat := (dstL % ((MAXVALS sz : Int) + 1)).toNat
    let fl3 := { fl2 with ZF := decide (dstM = 0) }
    let fl4 := { fl3 with PF := parity (dstM &&& 255) }
    rmSet { s with flags := fl4 } typ loc sz dstM

/-! ## `sys_brk` — `kernel.py` -/

/-- `SyscallsMixin.sys_brk` (syscall 0x2d): given the requested break (EBX),
`code_segment_end` and the current `program_break`, returns the new
`program_break` and the value written to EAX. -/
def sys_brk (brk code_segment_end program_break : Nat) : Nat × Nat :=
  let min_brk := code_segment_end
  if brk < min_brk then (program_break, program_break)
  else
    let newbrk := brk
    let oldbrk := program_break
    if oldbrk = newbrk then (oldbrk, oldbrk)
    else (brk, brk)

/-! ## `sys_set_thread_area` — `kernel.py` -/

/-- An unpacked 8-byte GDT segment descriptor, in the field order produced by
`segment_descriptor_struct.unpack` in the source.  Modelled from the spec:
`segment_descriptor_struct` lives in `VM/util.py`, which is not part of the
sources given; per the spec the record layout is
`(base3, limit2|flags_hi, access, base2, base1, limit1)` with an 8-bit
access byte (`info`). -/
structure Desc where
  base3 : Nat
  limit2 : Nat
  info : Nat
  base2 : Nat
  base1 : Nat
  limit1 : Nat
deriving DecidableEq, Repr

/-- One populated descriptor, as built inside the loop of
`sys_set_thread_area` from the old entry `d` and the user_desc's
`base_addr` and `limit`. -/
def populateDesc (d : Desc) (base limit : Nat) : Desc :=
  { base1 := base &&& 0xFFFF
    base3 := (base >>> 24) &&& 0xFF
    base2 := (base >>> 16) &&& 0xFF
    limit1 := limit &&& 0xFFFF
    limit2 := (d.limit2 &&& 0xF0) + ((limit >>> 16) &&& 0xF)
    info := d.info ||| (1 <<< 7) }

/-- The `for selector_index, entry in enumerate(self.GDT[1:], 1)` loop.
The present test mirrors the source exactly: `segment_present = (info >> 8) & 1`.
Returns the updated tail of the GDT and the final value of `selector_index`
(0 when the scanned list is empty, the last index when no entry was taken). -/
def scanGDT (base limit : Nat) : List Desc → Nat → List Desc × Nat
  | [], _ => ([], 0)
  | d :: rest, i =>
    if (d.info >>> 8) &&& 1 = 1 then
      match rest with
      | [] => (d :: rest, i)
      | _ :: _ =>
        let r := scanGDT base limit rest (i + 1)
        (d :: r.1, r.2)
    else (populateDesc d base limit :: rest, i)

/-- `SyscallsMixin.sys_set_thread_area` for a user_desc already unpacked into
`(entry_number, base, limit)`: returns the new GDT, the `selector_index`
written back (as a 32-bit value) at the user_desc address, and the EAX return
value. -/
def sys_set_thread_area (entry_number base limit : Nat) (gdt : List Desc) :
    List Desc × Nat × Nat :=
  if entry_number = 4294967295 then
    match gdt with
    | [] => (gdt, 0, 0)
    | d0 :: rest =>
      let r := scanGDT base limit rest 1
      (d0 :: r.1, r.2, 0)
  else (gdt, 0, 0)

/-! ## MOVS — class `MOVS` in `instructions/memory.py`

For MOVS the memory store's `segment_override` field and its fault behaviour
matter, so the state carries them and the memory accessors are fallible. -/

/-- The segment registers (`SegmentRegs` in `VM/util.py`). -/
inductive SegReg | cs | ss | ds | es | fs | gs
deriving DecidableEq, Repr

/-- State for the string-move instruction: registers, memory, the memory
store's mutable `segment_override` field, and EFLAGS. -/
structure MovsState where
  regs : Nat → Nat
  mem : Nat → Nat
  memSize : Nat
  segOverride : SegReg
  flags : EFlags

namespace MovsState

/-- Modelled from the spec: an out-of-range memory read surfaces as a fatal
fault (a Python exception); the backing store is not in the sources given.
`none` is the fault. -/
def memGetF (s : MovsState) (a sz : Nat) : Option Nat :=
  if a + sz ≤ s.memSize then some (s.mem a % (MAXVALS sz + 1)) else none

/-- Modelled from the spec: an out-of-range memory write surfaces as a fatal
fault. -/
def memSetF (s : MovsState) (a sz v : Nat) : Option MovsState :=
  if a + sz ≤ s.memSize then
    some { s with mem := fun i => if i = a then v % (MAXVALS sz + 1) else s.mem i }
  else none

/-- Register-file write on `MovsState` (same model as `regSet`). -/
def regSet (s : MovsState) (r sz v : Nat) : MovsState :=
  { s with regs := fun i =>
      if i = r then s.regs i - s.regs i % (MAXVALS sz + 1) + v % (MAXVALS sz + 1)
      else s.regs i }

end MovsState

/-- `MOVS.movs` (opcodes 0xA4/0xA5): copies one element of `sz` bytes from
`[ESI]` to `[EDI]`, temporarily setting `segment_override` to DS for the load
and ES for the store, then restoring it; afterwards ESI/EDI are stepped by
`sz` in the DF direction and masked to the address size.  The source has no
`try/finally`, so a memory fault propagates as an exception with whatever
`segment_override` was current; `Except.error` carries that state. -/
def MOVS.movs (sz addrSize : Nat) (s : MovsState) :
    Except MovsState MovsState :=
  let esi := s.regs 6 % (MAXVALS addrSize + 1)
  let edi := s.regs 7 % (MAXVALS addrSize + 1)
  let old_override := s.segOverride
  let s1 := { s with segOverride := SegReg.ds }
  match s1.memGetF esi sz with
  | none => .error s1
  | some esi_mem =>
    let s2 := { s1 with segOverride := SegReg.es }
    match s2.memSetF edi sz esi_mem with
    | none => .error s2
    | some s3 =>
      let s4 := { s3 with segOverride := old_override }
      let esiN : Int := if s4.flags.DF then (esi : Int) - sz else (esi : Int) + sz
      let ediN : Int := if s4.flags.DF then (edi : Int) - sz else (edi : Int) + sz
      let esi' := (esiN % ((MAXVALS addrSize : Int) + 1)).toNat
      let edi' := (ediN % ((MAXVALS addrSize : Int) + 1)).toNat
      .ok (MovsState.regSet (MovsState.regSet s4 6 addrSize esi') 7 addrSize edi')

/-! ## PUSHA / POPA — classes `PUSHA` and `POPA` in `instructions/memory.py`

The claims concern the 32-bit forms (operand size 4).  The stack helpers
`stack_push` / `stack_pop` live in the CPU core, which is not in the sources
given, so they are modelled from the spec. -/

/-- Full-slot register write: the pops in `POPA.popa` write a 4-byte value
(`vm.reg.set(reg, data)` with 4 bytes of data), replacing the whole 32-bit
slot; Python's `to_bytes(4, ...)` never masks (it raises if the value does
not fit). -/
def regWrite (s : Mach) (r v : Nat) : Mach :=
  { s with regs := fun i => if i = r then v else s.regs i }

/-- Modelled from the spec: `PUSH decrements ESP by the operand size then
writes`. -/
def stackPush (sz v : Nat) (s : Mach) : Mach :=
  let esp := s.regs 4 - sz
  memSet (regWrite s 4 esp) esp sz v

/-- Modelled from the spec: `POP reads then increments`. -/
def stackPop (sz : Nat) (s : Mach) : Nat × Mach :=
  let esp := s.regs 4
  (memGet s esp sz, regWrite s 4 (esp + sz))

/-- `PUSHA.pusha` (opcode 0x60) at operand size 4: saves ESP first, then
pushes EAX, ECX, EDX, EBX, the saved ESP, EBP, ESI, EDI in that order. -/
def PUSHA.pusha (s : Mach) : Mach :=
  let temp := regGet s 4 4
  let s1 := stackPush 4 (regGet s 0 4) s
  let s2 := stackPush 4 (regGet s1 1 4) s1
  let s3 := stackPush 4 (regGet s2 2 4) s2
  let s4 := stackPush 4 (regGet s3 3 4) s3
  let s5 := stackPush 4 temp s4
  let s6 := stackPush 4 (regGet s5 5 4) s5
  let s7 := stackPush 4 (regGet s6 6 4) s6
  stackPush 4 (regGet s7 7 4) s7

/-- `POPA.popa` (opcode 0x61) at operand size 4: pops EDI, ESI, EBP, then
skips the saved-ESP slot by adding the operand size to ESP, then pops EBX,
EDX, ECX, EAX. -/
def POPA.popa (s : Mach) : Mach :=
  let p7 := stackPop 4 s
  let t7 := regWrite p7.2 7 p7.1
  let p6 := stackPop 4 t7
  let t6 := regWrite p6.2 6 p6.1
  let p5 := stackPop 4 t6
  let t5 := regWrite p5.2 5 p5.1
  let esp := regGet t5 4 4
  let t4 := regWrite t5 4 (esp + 4)
  let p3 := stackPop 4 t4
  let t3 := regWrite p3.2 3 p3.1
  let p2 := stackPop 4 t3
  let t2 := regWrite p2.2 2 p2.1
  let p1 := stackPop 4 t2
  let t1 := regWrite p1.2 1 p1.1
  let p0 := stackPop 4 t1
  regWrite p0.2 0 p0.1

/-! ## Helper lemmas -/

lemma land_one_eq_testBit (c k : Nat) :
    decide ((c >>> k) &&& 1 = 1) = c.testBit k := by
  rw [Nat.and_one_is_mod, Nat.shiftRight_eq_div_pow, Nat.testBit_to_div_mod]

lemma land_two_pow_sub_one (x n : Nat) : x &&& (2 ^ n - 1) = x % 2 ^ n :=
  Nat.and_pow_two_sub_one_eq_mod x n

lemma land255 (x : Nat) : x &&& 255 = x % 256 := by
  have h := Nat.and_pow_two_sub_one_eq_mod x 8
  norm_num at h
  exact h

/-- Writing `b` on top of a value whose residue was removed keeps only `b`'s
residue: `(a - a % m + b) % m = b % m`. -/
lemma sub_mod_add_mod (a b m : Nat) : (a - a % m + b) % m = b % m := by
  have hd := Nat.div_add_mod a m
  have h1 : a - a % m = m * (a / m) := by omega
  rw [h1, Nat.add_comm, Nat.add_mul_mod_self_left]

/-- All-clear flags used in the concrete evaluations below. -/
def flags0 : EFlags := ⟨false, false, false, false, false, false, false⟩

/-! ## C1 — CMPXCHG flags -/

def c1state : Mach where
  regs := fun r => if r = 0 then 0x10 else if r = 3 then 0x01 else 0
  mem := fun _ => 0
  flags := flags0

/-- C1: the claim says CMPXCHG sets all compare flags including PF (parity of
the low byte of the difference) and AF as by SUB.  The code is wrong: at
AL=0x10, dst=BL=0x01 the 8-bit difference is 0x0F, whose parity is even
(`parity 0x0F = true`), yet PF stays at its initial value `false` (the source
line `vm.reg.eflags.PF, parity(c)` is a bare tuple with no effect); AF also
stays `false` although the low-nibble borrow of 0x10 - 0x01 is 1 (the source
compares whole low bytes instead of nibbles). -/
theorem C1_cmpxchg_flags_bug :
    (CMPXCHG.rm_r false 3 3 1 c1state).flags.PF = false ∧
    parity ((0x10 + MAXVALS 1 + 1 - 0x01) &&& MAXVALS 1) = true ∧
    (CMPXCHG.rm_r false 3 3 1 c1state).flags.AF = false ∧
    ((0x01 &&& 0xF) > (0x10 &&& 0xF)) ∧
    (CMPXCHG.rm_r false 3 3 1 c1state).flags.ZF = false ∧
    (CMPXCHG.rm_r false 3 3 1 c1state).regs 0 = 0x01 := by decide

/-! ## C2 — NEG/NOT write-back -/

def c2state : Mach where
  regs := fun _ => 0
  mem := fun a => if a = 0x40 then 5 else 0
  flags := flags0

/-- C2: the claim says NEG/NOT write the result back to the location kind
selected by ModR/M.  The code is wrong for memory operands: NOT of the byte
at address 0x40 (value 5) leaves the memory byte at 5 and instead deposits
the result 250 in the register file at index 0x40
(`vm.reg.set(loc, b)` is executed unconditionally). -/
theorem C2_negnot_memory_writeback_bug :
    (NEGNOT.rm false true 0x40 1 c2state).mem 0x40 = 5 ∧
    (NEGNOT.rm false true 0x40 1 c2state).regs 0x40 = 250 := by decide

/-! ## C3 — AND/OR/XOR/TEST flag semantics -/

lemma BITWISE.rm_r_flags (op : BitOp) (test typ : Bool) (loc rIdx sz : Nat)
    (s : Mach) :
    (BITWISE.rm_r op test typ loc rIdx sz s).flags =
      { s.flags with
        OF := false
        CF := false
        SF := decide ((op.apply (rmGet s typ loc sz) (regGet s rIdx sz) >>>
                (sz * 8 - 1)) &&& 1 = 1)
        ZF := decide (op.apply (rmGet s typ loc sz) (regGet s rIdx sz) &&&
                MAXVALS sz = 0)
        PF := parity ((op.apply (rmGet s typ loc sz) (regGet s rIdx sz) &&&
                MAXVALS sz) &&& 255) } := by
  unfold BITWISE.rm_r rmSet regSet memSet
  cases test <;> cases typ <;> rfl

lemma BITWISE.r_imm_flags (op : BitOp) (test : Bool) (sz imm : Nat) (s : Mach) :
    (BITWISE.r_imm op test sz imm s).flags =
      { s.flags with
        OF := false
        CF := false
        SF := decide ((op.apply (regGet s 0 sz) (imm % (MAXVALS sz + 1)) >>>
                (sz * 8 - 1)) &&& 1 = 1)
        ZF := decide (op.apply (regGet s 0 sz) (imm % (MAXVALS sz + 1)) &&&
                MAXVALS sz = 0)
        PF := parity ((op.apply (regGet s 0 sz) (imm % (MAXVALS sz + 1)) &&&
                MAXVALS sz) &&& 255) } := by
  unfold BITWISE.r_imm regSet
  cases test <;> rfl

/-- C3: after any AND/OR/XOR/TEST (`rm_r` and `r_imm` forms, any operand
size, any operand values, TEST included via `test = true`): OF = 0, CF = 0,
SF is the most significant bit of the truncated result, ZF holds exactly when
the truncated result is zero, and PF is the parity of the low byte of the
result. -/
theorem C3_bitwise_flags (op : BitOp) (test typ : Bool) (loc rIdx sz imm : Nat)
    (hsz : sz = 1 ∨ sz = 2 ∨ sz = 4) (s : Mach) :
    ((BITWISE.rm_r op test typ loc rIdx sz s).flags.OF = false ∧
     (BITWISE.rm_r op test typ loc rIdx sz s).flags.CF = false ∧
     (BITWISE.rm_r op test typ loc rIdx sz s).flags.SF =
       ((op.apply (rmGet s typ loc sz) (regGet s rIdx sz)) % 2 ^ (sz * 8)).testBit
         (sz * 8 - 1) ∧
     (BITWISE.rm_r op test typ loc rIdx sz s).flags.ZF =
       decide ((op.apply (rmGet s typ loc sz) (regGet s rIdx sz)) % 2 ^ (sz * 8) = 0) ∧
     (BITWISE.rm_r op test typ loc rIdx sz s).flags.PF =
       parity ((op.apply (rmGet s typ loc sz) (regGet s rIdx sz)) % 2 ^ (sz * 8) % 256)) ∧
    ((BITWISE.r_imm op test sz imm s).flags.OF = false ∧
     (BITWISE.r_imm op test sz imm s).flags.CF = false ∧
     (BITWISE.r_imm op test sz imm s).flags.SF =
       ((op.apply (regGet s 0 sz) (imm % 2 ^ (sz * 8))) % 2 ^ (sz * 8)).testBit
         (sz * 8 - 1) ∧
     (BITWISE.r_imm op test sz imm s).flags.ZF =
       decide ((op.apply (regGet s 0 sz) (imm % 2 ^ (sz * 8))) % 2 ^ (sz * 8) = 0) ∧
     (BITWISE.r_imm op test sz imm s).flags.PF =
       parity ((op.apply (regGet s 0 sz) (imm % 2 ^ (sz * 8))) % 2 ^ (sz * 8) % 256)) := by
  have hm : MAXVALS sz = 2 ^ (sz * 8) - 1 := by
    rcases hsz with h | h | h <;> subst h <;> decide
  have hm1 : MAXVALS sz + 1 = 2 ^ (sz * 8) := by
    rw [hm]
    have h1 : 1 ≤ 2 ^ (sz * 8) := Nat.one_le_two_pow
    omega
  have hlt : sz * 8 - 1 < sz * 8 := by
    rcases hsz with h | h | h <;> subst h <;> decide
  rw [BITWISE.rm_r_flags, BITWISE.r_imm_flags, hm1, hm]
  refine ⟨⟨rfl, rfl, ?_, ?_, ?_⟩, rfl, rfl, ?_, ?_, ?_⟩ <;>
    simp only [land_one_eq_testBit, land_two_pow_sub_one, land255,
      Nat.testBit_mod_two_pow, hlt, decide_True, Bool.true_and]

def c3state : Mach where
  regs := fun r => if r = 0 then 0xF0F0 else if r = 2 then 0x0FF0 else 0x1234
  mem := fun a => if a = 0x40 then 0x80000001 else 0
  flags := flags0

/-- Witness for C3 at AND, memory r/m at address 0x40 against EDX,
size 4, immediate 0x0F. -/
theorem C3_bitwise_flags_witness :
    (4 = 1 ∨ 4 = 2 ∨ 4 = 4) ∧
    (((BITWISE.rm_r BitOp.band false true 0x40 2 4 c3state).flags.OF = false ∧
      (BITWISE.rm_r BitOp.band false true 0x40 2 4 c3state).flags.CF = false ∧
      (BITWISE.rm_r BitOp.band false true 0x40 2 4 c3state).flags.SF =
        ((BitOp.band.apply (rmGet c3state true 0x40 4) (regGet c3state 2 4)) %
          2 ^ (4 * 8)).testBit (4 * 8 - 1) ∧
      (BITWISE.rm_r BitOp.band false true 0x40 2 4 c3state).flags.ZF =
        decide ((BitOp.band.apply (rmGet c3state true 0x40 4) (regGet c3state 2 4)) %
          2 ^ (4 * 8) = 0) ∧
      (BITWISE.rm_r BitOp.band false true 0x40 2 4 c3state).flags.PF =
        parity ((BitOp.band.apply (rmGet c3state true 0x40 4) (regGet c3state 2 4)) %
          2 ^ (4 * 8) % 256)) ∧
     ((BITWISE.r_imm BitOp.band false 4 0x0F c3state).flags.OF = false ∧
      (BITWISE.r_imm BitOp.band false 4 0x0F c3state).flags.CF = false ∧
      (BITWISE.r_imm BitOp.band false 4 0x0F c3state).flags.SF =
        ((BitOp.band.apply (regGet c3state 0 4) (0x0F % 2 ^ (4 * 8))) %
          2 ^ (4 * 8)).testBit (4 * 8 - 1) ∧
      (BITWISE.r_imm BitOp.band false 4 0x0F c3state).flags.ZF =
        decide ((BitOp.band.apply (regGet c3state 0 4) (0x0F % 2 ^ (4 * 8))) %
          2 ^ (4 * 8) = 0) ∧
      (BITWISE.r_imm BitOp.band false 4 0x0F c3state).flags.PF =
        parity ((BitOp.band.apply (regGet c3state 0 4) (0x0F % 2 ^ (4 * 8))) %
          2 ^ (4 * 8) % 256))) :=
  ⟨by decide, C3_bitwise_flags BitOp.band false true 0x40 2 4 0x0F (by decide) c3state⟩

/-! ## C4 — set_thread_area free-entry scan -/

def c4desc : Desc := ⟨0, 0, 0x9A, 0, 0, 0⟩

def c4gdt : List Desc := [⟨0, 0, 0, 0, 0, 0⟩, c4desc, ⟨0, 0, 0, 0, 0, 0⟩]

/-- C4: the claim says descriptors whose present bit is already set are
skipped.  The code is wrong: the present bit is bit 7 of the one-byte access
field (the code itself sets it with `info |= 1 << 7`), but the scan tests
`(info >> 8) & 1`, which is always 0; so with GDT entry 1 present
(access byte 0x9A, bit 7 set) the scan still populates and returns index 1
instead of skipping to the free entry 2. -/
theorem C4_set_thread_area_present_bit_bug :
    (sys_set_thread_area 4294967295 0x12345678 0xFFF c4gdt).2.1 = 1 ∧
    Nat.testBit c4desc.info 7 = true ∧
    (sys_set_thread_area 4294967295 0x12345678 0xFFF c4gdt).1 =
      [⟨0, 0, 0, 0, 0, 0⟩, populateDesc c4desc 0x12345678 0xFFF,
       ⟨0, 0, 0, 0, 0, 0⟩] := by decide

/-! ## C5 — sys_brk -/

/-- C5: `sys_brk` leaves the program break unchanged when the request is
below `code_segment_end` or equal to the current break, otherwise sets it to
the request; in every case EAX receives the post-call break. -/
theorem C5_sys_brk_spec (brk cse pb : Nat) :
    (sys_brk brk cse pb).1 = (if brk < cse ∨ brk = pb then pb else brk) ∧
    (sys_brk brk cse pb).2 = (sys_brk brk cse pb).1 := by
  unfold sys_brk
  rcases Nat.lt_or_ge brk cse with h | h
  · simp [h]
  · have h' : ¬brk < cse := Nat.not_lt.mpr h
    by_cases he : pb = brk
    · simp [h', he]
    · have he2 : ¬brk = pb := fun hh => he hh.symm
      simp [h', he, he2]

/-! ## C6 — shifts with zero masked count -/

/-- C6: a SHL/SHR/SAR whose count masked with 0x1F is zero changes neither
the destination operand nor any EFLAGS bit (the handler returns before
reading or writing anything). -/
theorem C6_shift_zero_count_noop (op : ShiftOp) (cnt : Nat) (typ : Bool)
    (loc sz : Nat) (s : Mach) (h : cnt &&& 0x1F = 0) :
    SHIFT.shift op cnt typ loc sz s = s := by
  unfold SHIFT.shift
  simp [h]

def c6state : Mach where
  regs := fun r => if r = 0 then 0x80000000 else 0
  mem := fun _ => 0
  flags := flags0

/-- Witness for C6: SHL EAX with CL = 32 (32 &&& 0x1F = 0) is a no-op. -/
theorem C6_shift_zero_count_noop_witness :
    SHIFT.shift ShiftOp.shl 32 false 0 4 c6state = c6state :=
  C6_shift_zero_count_noop ShiftOp.shl 32 false 0 4 c6state (by decide)

/-! ## C7 — MOVS pointer stepping -/

/-- Whether a MOVS execution completed without a memory fault. -/
def isOkB : Except MovsState MovsState → Bool
  | .ok _ => true
  | .error _ => false

/-- The low `w` bits of register `r` in the success state of a MOVS
execution. -/
def okRegLow (r w : Nat) : Except MovsState MovsState → Option Nat
  | .ok s => some (s.regs r % 2 ^ w)
  | .error _ => none

lemma int_mod_toNat_lt (z : Int) (m : Nat) (hm : 0 < m) :
    (z % (m : Int)).toNat < m := by
  have h0 : (m : Int) ≠ 0 := by exact_mod_cast hm.ne'
  have h1 : 0 ≤ z % (m : Int) := Int.emod_nonneg z h0
  have h2 : z % (m : Int) < m := Int.emod_lt_of_pos z (by exact_mod_cast hm)
  omega

lemma int_mod_two_pow_toNat_lt (z : Int) (w : Nat) :
    (z % ((2 : Int) ^ w)).toNat < 2 ^ w := by
  have h0 : ((2 : Int) ^ w) = ((2 ^ w : Nat) : Int) := by push_cast; rfl
  rw [h0]
  exact int_mod_toNat_lt z (2 ^ w) (Nat.two_pow_pos w)

lemma int_add_mod_two_pow_toNat (a b w : Nat) :
    (((a : Int) + (b : Int)) % ((2 : Int) ^ w)).toNat = (a + b) % 2 ^ w := by
  have h0 : ((2 : Int) ^ w) = ((2 ^ w : Nat) : Int) := by push_cast; rfl
  rw [h0, ← Nat.cast_add, ← Int.natCast_mod, Int.toNat_natCast]

/-- C7: after a faultless MOVS of element size `sz`, ESI and EDI are each
incremented by `sz` when DF = 0 and decremented by `sz` when DF = 1, the
results being masked to the address-size width. -/
theorem C7_movs_esi_edi_step (sz addrSize : Nat) (s : MovsState)
    (haddr : addrSize = 2 ∨ addrSize = 4)
    (hok : isOkB (MOVS.movs sz addrSize s) = true) :
    okRegLow 6 (addrSize * 8) (MOVS.movs sz addrSize s) =
      some (if s.flags.DF
        then ((((s.regs 6 % 2 ^ (addrSize * 8) : Nat) : Int) - sz) %
          (2 ^ (addrSize * 8) : Int)).toNat
        else (s.regs 6 % 2 ^ (addrSize * 8) + sz) % 2 ^ (addrSize * 8)) ∧
    okRegLow 7 (addrSize * 8) (MOVS.movs sz addrSize s) =
      some (if s.flags.DF
        then ((((s.regs 7 % 2 ^ (addrSize * 8) : Nat) : Int) - sz) %
          (2 ^ (addrSize * 8) : Int)).toNat
        else (s.regs 7 % 2 ^ (addrSize * 8) + sz) % 2 ^ (addrSize * 8)) := by
  have hm1 : MAXVALS addrSize + 1 = 2 ^ (addrSize * 8) := by
    rcases haddr with h | h <;> subst h <;> decide
  have hmpos : 0 < 2 ^ (addrSize * 8) := Nat.two_pow_pos _
  have hm2 : (MAXVALS addrSize : Int) + 1 = ((2 ^ (addrSize * 8) : Nat) : Int) := by
    exact_mod_cast congrArg (Nat.cast : Nat → Int) hm1
  have hcast : ((2 ^ (addrSize * 8) : Nat) : Int) = (2 ^ (addrSize * 8) : Int) := by
    push_cast
    rfl
  rw [← hcast]
  simp only [MOVS.movs, MovsState.memGetF, MovsState.memSetF,
    MovsState.regSet, hm1, hm2] at hok ⊢
  by_cases h1 : s.regs 6 % 2 ^ (addrSize * 8) + sz ≤ s.memSize
  · by_cases h2 : s.regs 7 % 2 ^ (addrSize * 8) + sz ≤ s.memSize
    · by_cases hdf : s.flags.DF
      · simp [h1, h2, okRegLow, hdf]
        refine ⟨?_, ?_⟩ <;>
          rw [sub_mod_add_mod, Nat.mod_eq_of_lt (int_mod_two_pow_toNat_lt _ _)]
      · simp [h1, h2, okRegLow, hdf]
        refine ⟨?_, ?_⟩ <;>
          rw [sub_mod_add_mod, int_add_mod_two_pow_toNat,
            Nat.mod_mod_of_dvd _ dvd_rfl]
    · simp only [h1, h2, if_true, if_false, isOkB] at hok
      exact absurd hok (by simp)
  · simp only [h1, if_false, isOkB] at hok
    exact absurd hok (by simp)

def c7state : MovsState where
  regs := fun r => if r = 6 then 0x1000 else if r = 7 then 0x2000 else 0
  mem := fun _ => 0
  memSize := 0x10000
  segOverride := SegReg.cs
  flags := flags0

/-- Witness for C7: MOVSD (size 4, 32-bit addressing) with DF = 0,
ESI = 0x1000, EDI = 0x2000. -/
theorem C7_movs_esi_edi_step_witness :
    (4 = 2 ∨ 4 = 4) ∧ isOkB (MOVS.movs 4 4 c7state) = true ∧
    (okRegLow 6 (4 * 8) (MOVS.movs 4 4 c7state) =
      some (if c7state.flags.DF
        then ((((c7state.regs 6 % 2 ^ (4 * 8) : Nat) : Int) - (4 : Nat)) %
          (2 ^ (4 * 8) : Int)).toNat
        else (c7state.regs 6 % 2 ^ (4 * 8) + 4) % 2 ^ (4 * 8)) ∧
     okRegLow 7 (4 * 8) (MOVS.movs 4 4 c7state) =
      some (if c7state.flags.DF
        then ((((c7state.regs 7 % 2 ^ (4 * 8) : Nat) : Int) - (4 : Nat)) %
          (2 ^ (4 * 8) : Int)).toNat
        else (c7state.regs 7 % 2 ^ (4 * 8) + 4) % 2 ^ (4 * 8))) :=
  ⟨Or.inr rfl, by decide,
    C7_movs_esi_edi_step 4 4 c7state (Or.inr rfl) (by decide)⟩

/-! ## C8 — MOVS segment-override restore on faults -/

def c8state : MovsState where
  regs := fun r => if r = 6 then 0x20000 else 0x100
  mem := fun _ => 0
  memSize := 0x10000
  segOverride := SegReg.es
  flags := flags0

/-- The segment override left behind when a MOVS faults. -/
def faultOverride : Except MovsState MovsState → Option SegReg
  | .error e => some e.segOverride
  | .ok _ => none

/-- C8: the claim says segment_override is restored on every exit path
including memory faults.  The code is wrong: there is no try/finally, so when
the load at ESI=0x20000 faults (memory size 0x10000) the exception propagates
with segment_override still set to DS, not the caller's ES. -/
theorem C8_movs_fault_override_bug :
    faultOverride (MOVS.movs 4 4 c8state) = some SegReg.ds ∧
    c8state.segOverride = SegReg.es := by decide

/-! ## C9 — XCHG r/m,r with a memory operand -/

def c9state : Mach where
  regs := fun r => if r = 3 then 0xBB else 0
  mem := fun a => if a = 3 then 0xAA else 0
  flags := flags0

/-- C9: the claim says a memory r/m operand is always exchanged with the reg
operand.  The code is wrong: the swap is guarded by `loc != R[1]`, which
compares the effective address with the register index, so with the memory
operand at address 3 and reg field 3 nothing is exchanged. -/
theorem C9_xchg_memory_alias_bug :
    (XCHG.rm_r true 3 3 4 c9state).mem 3 = 0xAA ∧
    (XCHG.rm_r true 3 3 4 c9state).regs 3 = 0xBB := by decide

/-! ## C10 — PUSHAD;POPAD round trip -/

section PushaPopa

variable (t s : Mach)

lemma popa_regs_7 : (POPA.popa t).regs 7 = t.mem (t.regs 4) % (MAXVALS 4 + 1) := by
  simp [POPA.popa, stackPop, regWrite, memGet, regGet]

lemma popa_regs_6 : (POPA.popa t).regs 6 = t.mem (t.regs 4 + 4) % (MAXVALS 4 + 1) := by
  simp [POPA.popa, stackPop, regWrite, memGet, regGet]

lemma popa_regs_5 :
    (POPA.popa t).regs 5 = t.mem (t.regs 4 + 4 + 4) % (MAXVALS 4 + 1) := by
  simp [POPA.popa, stackPop, regWrite, memGet, regGet]

lemma popa_regs_3 :
    (POPA.popa t).regs 3 =
      t.mem ((t.regs 4 + 4 + 4 + 4) % (MAXVALS 4 + 1) + 4) % (MAXVALS 4 + 1) := by
  simp [POPA.popa, stackPop, regWrite, memGet, regGet]

lemma popa_regs_2 :
    (POPA.popa t).regs 2 =
      t.mem ((t.regs 4 + 4 + 4 + 4) % (MAXVALS 4 + 1) + 4 + 4) % (MAXVALS 4 + 1) := by
  simp [POPA.popa, stackPop, regWrite, memGet, regGet]

lemma popa_regs_1 :
    (POPA.popa t).regs 1 =
      t.mem ((t.regs 4 + 4 + 4 + 4) % (MAXVALS 4 + 1) + 4 + 4 + 4) %
        (MAXVALS 4 + 1) := by
  simp [POPA.popa, stackPop, regWrite, memGet, regGet]

lemma popa_regs_0 :
    (POPA.popa t).regs 0 =
      t.mem ((t.regs 4 + 4 + 4 + 4) % (MAXVALS 4 + 1) + 4 + 4 + 4 + 4) %
        (MAXVALS 4 + 1) := by
  simp [POPA.popa, stackPop, regWrite, memGet, regGet]

lemma popa_regs_4 :
    (POPA.popa t).regs 4 =
      (t.regs 4 + 4 + 4 + 4) % (MAXVALS 4 + 1) + 4 + 4 + 4 + 4 + 4 := by
  simp [POPA.popa, stackPop, regWrite, memGet, regGet]

lemma pusha_regs_4 :
    (PUSHA.pusha s).regs 4 = s.regs 4 - 4 - 4 - 4 - 4 - 4 - 4 - 4 - 4 := by
  simp [PUSHA.pusha, stackPush, memSet, regWrite, regGet]

lemma pusha_mem (a : Nat) :
    (PUSHA.pusha s).mem a =
      if a = s.regs 4 - 4 - 4 - 4 - 4 - 4 - 4 - 4 - 4 then
        s.regs 7 % (MAXVALS 4 + 1) % (MAXVALS 4 + 1)
      else if a = s.regs 4 - 4 - 4 - 4 - 4 - 4 - 4 - 4 then
        s.regs 6 % (MAXVALS 4 + 1) % (MAXVALS 4 + 1)
      else if a = s.regs 4 - 4 - 4 - 4 - 4 - 4 - 4 then
        s.regs 5 % (MAXVALS 4 + 1) % (MAXVALS 4 + 1)
      else if a = s.regs 4 - 4 - 4 - 4 - 4 - 4 then
        s.regs 4 % (MAXVALS 4 + 1) % (MAXVALS 4 + 1)
      else if a = s.regs 4 - 4 - 4 - 4 - 4 then
        s.regs 3 % (MAXVALS 4 + 1) % (MAXVALS 4 + 1)
      else if a = s.regs 4 - 4 - 4 - 4 then
        s.regs 2 % (MAXVALS 4 + 1) % (MAXVALS 4 + 1)
      else if a = s.regs 4 - 4 - 4 then
        s.regs 1 % (MAXVALS 4 + 1) % (MAXVALS 4 + 1)
      else if a = s.regs 4 - 4 then
        s.regs 0 % (MAXVALS 4 + 1) % (MAXVALS 4 + 1)
      else s.mem a := by
  simp [PUSHA.pusha, stackPush, memSet, regWrite, regGet]

end PushaPopa

set_option maxHeartbeats 1600000 in
/-- C10: for any state with a valid stack (ESP at least 32 and genuine
32-bit register slots), PUSHAD followed by POPAD restores all eight
general-purpose registers, ESP included; and PUSHAD pushes EAX, ECX, EDX,
EBX, the original ESP, EBP, ESI, EDI in that order at descending addresses,
leaving ESP lowered by 32. -/
theorem C10_pusha_popa_roundtrip (s : Mach)
    (hesp : 32 ≤ s.regs 4) (hreg : ∀ r, r < 8 → s.regs r < 2 ^ 32) :
    (∀ r, r < 8 → (POPA.popa (PUSHA.pusha s)).regs r = s.regs r) ∧
    (PUSHA.pusha s).regs 4 = s.regs 4 - 32 ∧
    (PUSHA.pusha s).mem (s.regs 4 - 4) = s.regs 0 ∧
    (PUSHA.pusha s).mem (s.regs 4 - 8) = s.regs 1 ∧
    (PUSHA.pusha s).mem (s.regs 4 - 12) = s.regs 2 ∧
    (PUSHA.pusha s).mem (s.regs 4 - 16) = s.regs 3 ∧
    (PUSHA.pusha s).mem (s.regs 4 - 20) = s.regs 4 ∧
    (PUSHA.pusha s).mem (s.regs 4 - 24) = s.regs 5 ∧
    (PUSHA.pusha s).mem (s.regs 4 - 28) = s.regs 6 ∧
    (PUSHA.pusha s).mem (s.regs 4 - 32) = s.regs 7 := by
  obtain ⟨e, he⟩ : ∃ e, s.regs 4 = e + 32 := ⟨s.regs 4 - 32, by omega⟩
  have hM : MAXVALS 4 + 1 = 2 ^ 32 := by decide
  have hmm : ∀ x : Nat, x % (MAXVALS 4 + 1) % (MAXVALS 4 + 1) = x % (MAXVALS 4 + 1) :=
    fun x => Nat.mod_mod_of_dvd x dvd_rfl
  have m0 : s.regs 0 % (MAXVALS 4 + 1) = s.regs 0 :=
    Nat.mod_eq_of_lt (by rw [hM]; exact hreg 0 (by omega))
  have m1 : s.regs 1 % (MAXVALS 4 + 1) = s.regs 1 :=
    Nat.mod_eq_of_lt (by rw [hM]; exact hreg 1 (by omega))
  have m2 : s.regs 2 % (MAXVALS 4 + 1) = s.regs 2 :=
    Nat.mod_eq_of_lt (by rw [hM]; exact hreg 2 (by omega))
  have m3 : s.regs 3 % (MAXVALS 4 + 1) = s.regs 3 :=
    Nat.mod_eq_of_lt (by rw [hM]; exact hreg 3 (by omega))
  have m5 : s.regs 5 % (MAXVALS 4 + 1) = s.regs 5 :=
    Nat.mod_eq_of_lt (by rw [hM]; exact hreg 5 (by omega))
  have m6 : s.regs 6 % (MAXVALS 4 + 1) = s.regs 6 :=
    Nat.mod_eq_of_lt (by rw [hM]; exact hreg 6 (by omega))
  have m7 : s.regs 7 % (MAXVALS 4 + 1) = s.regs 7 :=
    Nat.mod_eq_of_lt (by rw [hM]; exact hreg 7 (by omega))
  have hlt32 : e + 32 < 2 ^ 32 := by
    have h := hreg 4 (by omega)
    omega
  have m4 : s.regs 4 % (MAXVALS 4 + 1) = s.regs 4 := by
    rw [hM]
    exact Nat.mod_eq_of_lt (hreg 4 (by omega))
  have me12 : (e + 12) % (MAXVALS 4 + 1) = e + 12 :=
    Nat.mod_eq_of_lt (by rw [hM]; omega)
  have me32 : (e + 32) % (MAXVALS 4 + 1) = e + 32 :=
    Nat.mod_eq_of_lt (by rw [hM]; omega)
  have g28 : e + 32 - 4 = e + 28 := by omega
  have g24 : e + 28 - 4 = e + 24 := by omega
  have g20 : e + 24 - 4 = e + 20 := by omega
  have g16 : e + 20 - 4 = e + 16 := by omega
  have g12 : e + 16 - 4 = e + 12 := by omega
  have g8 : e + 12 - 4 = e + 8 := by omega
  have g4 : e + 8 - 4 = e + 4 := by omega
  have g0 : e + 4 - 4 = e := by omega
  have q8 : e + 4 + 4 = e + 8 := by omega
  have q12 : e + 8 + 4 = e + 12 := by omega
  have q16 : e + 12 + 4 = e + 16 := by omega
  have q20 : e + 16 + 4 = e + 20 := by omega
  have q24 : e + 20 + 4 = e + 24 := by omega
  have q28 : e + 24 + 4 = e + 28 := by omega
  have q32 : e + 28 + 4 = e + 32 := by omega
  have w4 : e + 4 = e + 4 := rfl
  have p4 : e + 0 + 4 = e + 4 := by omega
  have p0 : (e : Nat) + 0 = e := by omega
  constructor
  · intro r hr
    interval_cases r
    · rw [popa_regs_0, pusha_regs_4, pusha_mem]
      simp [he, g28, g24, g20, g16, g12, g8, g4, g0, q8, q12, q16, q20, q24,
        q28, q32, p4, p0, me12, me32, hmm, m0, m1, m2, m3, m4, m5, m6, m7,
        Nat.add_left_cancel_iff]
    · rw [popa_regs_1, pusha_regs_4, pusha_mem]
      simp [he, g28, g24, g20, g16, g12, g8, g4, g0, q8, q12, q16, q20, q24,
        q28, q32, p4, p0, me12, me32, hmm, m0, m1, m2, m3, m4, m5, m6, m7,
        Nat.add_left_cancel_iff]
    · rw [popa_regs_2, pusha_regs_4, pusha_mem]
      simp [he, g28, g24, g20, g16, g12, g8, g4, g0, q8, q12, q16, q20, q24,
        q28, q32, p4, p0, me12, me32, hmm, m0, m1, m2, m3, m4, m5, m6, m7,
        Nat.add_left_cancel_iff]
    · rw [popa_regs_3, pusha_regs_4, pusha_mem]
      simp [he, g28, g24, g20, g16, g12, g8, g4, g0, q8, q12, q16, q20, q24,
        q28, q32, p4, p0, me12, me32, hmm, m0, m1, m2, m3, m4, m5, m6, m7,
        Nat.add_left_cancel_iff]
    · rw [popa_regs_4, pusha_regs_4]
      simp [he, g28, g24, g20, g16, g12, g8, g4, g0, q8, q12, q16, q20, q24,
        q28, q32, p4, p0, me12, me32]
    · rw [popa_regs_5, pusha_regs_4, pusha_mem]
      simp [he, g28, g24, g20, g16, g12, g8, g4, g0, q8, q12, q16, q20, q24,
        q28, q32, p4, p0, me12, me32, hmm, m0, m1, m2, m3, m4, m5, m6, m7,
        Nat.add_left_cancel_iff]
    · rw [popa_regs_6, pusha_regs_4, pusha_mem]
      simp [he, g28, g24, g20, g16, g12, g8, g4, g0, q8, q12, q16, q20, q24,
        q28, q32, p4, p0, me12, me32, hmm, m0, m1, m2, m3, m4, m5, m6, m7,
        Nat.add_left_cancel_iff]
    · rw [popa_regs_7, pusha_regs_4, pusha_mem]
      simp [he, g28, g24, g20, g16, g12, g8, g4, g0, q8, q12, q16, q20, q24,
        q28, q32, p4, p0, me12, me32, hmm, m0, m1, m2, m3, m4, m5, m6, m7,
        Nat.add_left_cancel_iff]
  refine ⟨?_, ?_, ?_, ?_, ?_, ?_, ?_, ?_, ?_⟩
  · rw [pusha_regs_4]; omega
  all_goals
    rw [pusha_mem]
    simp [he, g28, g24, g20, g16, g12, g8, g4, g0, hmm, me32, m0, m1, m2, m3,
      m4, m5, m6, m7, Nat.add_left_cancel_iff]

def c10state : Mach where
  regs := fun r => if r = 4 then 1000 else r + 100
  mem := fun _ => 0
  flags := flags0

/-- Witness for C10 at a concrete state with ESP = 1000. -/
theorem C10_pusha_popa_roundtrip_witness :
    (POPA.popa (PUSHA.pusha c10state)).regs 4 = c10state.regs 4 ∧
    (POPA.popa (PUSHA.pusha c10state)).regs 0 = c10state.regs 0 ∧
    (PUSHA.pusha c10state).regs 4 = c10state.regs 4 - 32 :=
  ⟨(C10_pusha_popa_roundtrip c10state (by decide) (by decide)).1 4 (by decide),
   (C10_pusha_popa_roundtrip c10state (by decide) (by decide)).1 0 (by decide),
   (C10_pusha_popa_roundtrip c10state (by decide) (by decide)).2.1⟩

end PyVM
